import Mathlib

/-!
Verification of `src/models/models.py` (CR_RE_NER).

The file shallowly embeds the repository's own code: the model registry
(`register_model`, `load_model`, `_camel_case`), the two pooling heads
(`SimplePooler`, `MeanPooler`), the CRF token-tagging head's forward, and
the flat relation-classification heads' loss/packaging logic.  External
collaborators (the T5 encoder backbone, the torchcrf library, torch loss
primitives, dropout randomness) are uninterpreted parameters, matching the
spec's scoping.  Float tensors are idealised as rationals; the float
square root in `MeanPooler` is an abstract function parameter `sq`.
-/

/-! ## Model registry (models.py lines 13-61) -/

/-- `MODEL_REGISTRY` is a Python dict from names to classes; we model the
dict as a lookup function and dict assignment as pointwise update.  The
class type is an abstract `α`. -/
def Registry (α : Type) : Type := String → Option α

/-- Embeds `register_model` (lines 15-29): the decorator records
`name ↦ cls_` in the registry (overwriting any previous entry, as dict
assignment does) and returns the decorated class unchanged.  The result
pair is (updated registry, value returned by the decorator). -/
def register_model {α : Type} (name : String) (cls : α) (registry : Registry α) :
    Registry α × α :=
  (fun n => if n = name then some cls else registry n, cls)

/-- Python `str.split(sep)` for a one-character separator, on the
character list: `"".split(c) = [""]`, `":".split(':') = ["", ""]`,
`"a:b".split(':') = ["a", "b"]`. -/
def splitChar (sep : Char) : List Char → List (List Char)
  | [] => [[]]
  | c :: cs =>
    match splitChar sep cs, decide (c = sep) with
    | r, true => [] :: r
    | [], false => [[c]]
    | g :: gs, false => (c :: g) :: gs

/-- Python `s.split(sep)` for a one-character separator. -/
def pySplit (s : String) (sep : Char) : List String :=
  (splitChar sep s.data).map String.mk

/-- Python `c in s` membership test. -/
def pyContains (s : String) (c : Char) : Bool :=
  s.data.contains c

/-- Python `sep.join(parts)` for a one-character separator. -/
def pyJoin (sep : Char) (parts : List String) : String :=
  String.mk (joinAux sep (parts.map String.data))
where
  joinAux (sep : Char) : List (List Char) → List Char
    | [] => []
    | [g] => g
    | g :: gs => g ++ sep :: joinAux sep gs

/-- Embeds `_camel_case`'s loop (lines 32-37): `class_name` is the
accumulator; on an empty word `w[0]` raises IndexError, modelled as
`none`. -/
def camelAux : List String → String → Option String
  | [], class_name => some class_name
  | w :: ws, class_name =>
    match w.data with
    | [] => none
    | c :: cs => camelAux ws (class_name ++ String.mk (c.toUpper :: cs))

/-- Embeds `_camel_case` (lines 32-37): split on underscores, then for each
word concatenate `w[0].upper() + w[1:]`. -/
def _camel_case (name : String) : Option String :=
  camelAux (pySplit name '_') ""

/-- Outcome of `load_model`.  Importing and `getattr` are outside this
code (the spec's ImportFailure case), so a dynamic lookup is recorded as
the module name and class name handed to `importlib` / `getattr`. -/
inductive LoadResult (α : Type) where
  | registered (cls : α)
  | dynamic (module_name : String) (class_name : String)
  | indexError
  | invalidIdentifier (msg : String)
  deriving DecidableEq

/-- The ValueError message of lines 55-57 with the identifier formatted in. -/
def invalidMsg (model_path : String) : String :=
  "unsupported model path: " ++ model_path ++
    ". you have to provide full path to model or " ++
    "register the model using @register_model decorator"

/-- Embeds `load_model` (lines 40-61).  Notes kept from the source:
the registry is consulted first; the `':'` test precedes the `'/'` test;
in the `'/'` branch the path is split on `':'` again (lines 50-53), so
`path_list[1]` raises IndexError there (no `':'` is present in that
branch); `_camel_case` may itself raise IndexError on an empty word. -/
def load_model {α : Type} (registry : Registry α) (model_path : String) :
    LoadResult α :=
  match registry model_path with
  | some cls => .registered cls
  | none =>
    if pyContains model_path ':' then
      match pySplit model_path ':' with
      | module_name :: second :: _ =>
        match _camel_case second with
        | some class_name => .dynamic module_name class_name
        | none => .indexError
      | _ => .indexError
    else if pyContains model_path '/' then
      match pySplit model_path ':' with
      | first :: second :: _ =>
        match _camel_case second with
        | some class_name =>
            .dynamic (pyJoin '.' (pySplit first '/')) class_name
        | none => .indexError
      | _ => .indexError
    else
      .invalidIdentifier (invalidMsg model_path)

/-- Spec-side formulation of the snake_case → CamelCase rule, following the
spec's words: capitalize the first letter of each underscore-delimited word,
leave the rest unchanged, and concatenate the words. -/
def capitalizeFirst (w : String) : String :=
  match w.data with
  | [] => ""
  | c :: cs => String.mk (c.toUpper :: cs)

/-- Spec-side CamelCase conversion: concatenation of the capitalized words. -/
def camelSpec (name : String) : String :=
  String.mk (List.flatten ((pySplit name '_').map (fun w => (capitalizeFirst w).data)))

/-- An empty registry (no `@register_model` has run). -/
def emptyRegistry : Registry Nat := fun _ => none

lemma camelAux_eq_of_nonempty :
    ∀ (ws : List String) (acc : String), (∀ w ∈ ws, w ≠ "") →
      camelAux ws acc =
        some (String.mk (acc.data ++ List.flatten (ws.map (fun w => (capitalizeFirst w).data))))
  | [], acc, _ => by simp [camelAux]
  | w :: ws, acc, h => by
    match hw : w.data with
    | [] =>
      exact absurd (by cases w; cases hw; rfl) (h w (List.mem_cons_self w ws))
    | c :: cs =>
      have ih := camelAux_eq_of_nonempty ws (acc ++ String.mk (c.toUpper :: cs))
        (fun x hx => h x (List.mem_cons_of_mem w hx))
      simp only [camelAux, hw, ih, List.map_cons]
      have hdata : (acc ++ String.mk (c.toUpper :: cs)).data = acc.data ++ (c.toUpper :: cs) := by
        simp [String.data_append]
      have hcap : (capitalizeFirst w).data = c.toUpper :: cs := by
        simp [capitalizeFirst, hw]
      rw [hdata, hcap]
      simp [List.flatten_cons, List.append_assoc]

/-- C1: `load_model` applied to a registered name returns the exact class
passed to `register_model(name)`; the decorator returns the decorated class
unchanged; and on a name collision the previous entry is silently
overwritten, so resolution returns the most recently registered class. -/
theorem registry_resolve_exact (α : Type) (registry : Registry α) (name : String)
    (cls c₁ c₂ : α) :
    (register_model name cls registry).2 = cls ∧
    load_model (register_model name cls registry).1 name = .registered cls ∧
    load_model (register_model name c₂ (register_model name c₁ registry).1).1 name =
      .registered c₂ := by
  refine ⟨rfl, ?_, ?_⟩ <;> simp [load_model, register_model]

/-- C2 (code-bug evidence): for the slash-separated locator
`"path/to/module:my_head"`, `load_model` takes the `':'` branch (tested
first) and hands the module locator to `importlib` verbatim, slashes
unconverted — not the dotted `"path.to.module"` the spec describes.  The
branch that performs the slash-to-dot conversion is reachable only when no
`':'` is present, and then `path_list[1]` raises IndexError because the
path was split on the absent `':'`. -/
theorem slash_locator_not_dotted :
    load_model emptyRegistry "path/to/module:my_head" =
      .dynamic "path/to/module" "MyHead" ∧
    LoadResult.dynamic (α := Nat) "path/to/module" "MyHead" ≠
      .dynamic "path.to.module" "MyHead" ∧
    load_model emptyRegistry "path/to/module" = .indexError := by
  refine ⟨by decide, by decide, by decide⟩

/-- C3: on any name whose underscore-delimited words are all non-empty,
`_camel_case` capitalizes the first character of each word, leaves the rest
unchanged and concatenates the words; in particular `"my_head" ↦ "MyHead"`,
`"a_b_c" ↦ "ABC"` and `"t5_model" ↦ "T5Model"`. -/
theorem camel_case_spec_conversion :
    (∀ name : String, (∀ w ∈ pySplit name '_', w ≠ "") →
      _camel_case name = some (camelSpec name)) ∧
    _camel_case "my_head" = some "MyHead" ∧
    _camel_case "a_b_c" = some "ABC" ∧
    _camel_case "t5_model" = some "T5Model" := by
  refine ⟨fun name h => ?_, by decide, by decide, by decide⟩
  unfold _camel_case camelSpec
  rw [camelAux_eq_of_nonempty _ _ h]
  simp

/-- Witness for C3 at the concrete name `"entity_head"`. -/
theorem camel_case_spec_conversion_witness :
    (∀ w ∈ pySplit "entity_head" '_', w ≠ "") ∧
    _camel_case "entity_head" = some (camelSpec "entity_head") :=
  ⟨by decide, camel_case_spec_conversion.1 "entity_head" (by decide)⟩

/-- C4: `load_model` produces the invalid-identifier error (and no other
outcome) exactly when the identifier is unregistered and contains neither
`':'` nor `'/'`; the message contains the offending identifier between the
fixed remediation text. -/
theorem invalid_identifier_iff (α : Type) (registry : Registry α) (p : String) :
    ((registry p = none ∧ pyContains p ':' = false ∧ pyContains p '/' = false) ↔
      load_model registry p = .invalidIdentifier (invalidMsg p)) ∧
    (invalidMsg p).data =
      "unsupported model path: ".data ++ p.data ++
        (". you have to provide full path to model or " ++
          "register the model using @register_model decorator").data := by
  constructor
  · constructor
    · rintro ⟨hr, h1, h2⟩
      unfold load_model
      rw [hr]
      simp [h1, h2]
    · intro h
      unfold load_model at h
      rcases hr : registry p with _ | cls
      · rw [hr] at h
        by_cases h1 : pyContains p ':' = true
        · rcases hsp : pySplit p ':' with _ | ⟨a, _ | ⟨b, rest⟩⟩ <;>
            rcases hcc : _camel_case "" with _ | cn <;>
            simp [h1, hsp] at h <;>
            rcases hcb : _camel_case b with _ | cn' <;>
            simp [hcb] at h
        · by_cases h2 : pyContains p '/' = true
          · simp only [h1, Bool.false_eq_true, if_false, h2, if_true] at h
            rcases hsp : pySplit p ':' with _ | ⟨a, _ | ⟨b, rest⟩⟩ <;>
              simp [hsp] at h <;>
              rcases hcb : _camel_case b with _ | cn' <;>
              simp [hcb] at h
          · exact ⟨by simp [hr], by simpa using h1, by simpa using h2⟩
      · rw [hr] at h
        simp at h
  · simp [invalidMsg, String.data_append]

/-- Witness for C4 at the concrete identifier `"plainname"`. -/
theorem invalid_identifier_iff_witness :
    (emptyRegistry "plainname" = none ∧ pyContains "plainname" ':' = false ∧
      pyContains "plainname" '/' = false) ∧
    load_model emptyRegistry "plainname" = .invalidIdentifier (invalidMsg "plainname") :=
  ⟨⟨rfl, by decide, by decide⟩,
    ((invalid_identifier_iff Nat emptyRegistry "plainname").1).mp ⟨rfl, by decide, by decide⟩⟩

/-! ## Configuration and the flat heads' loss policy (lines 109-112, 341-359, 430-448) -/

/-- The three values the heads may store in `config.problem_type`. -/
inductive ProblemType where
  | regression
  | single_label_classification
  | multi_label_classification
  deriving DecidableEq

/-- Torch label dtypes relevant here.  `long` is `torch.long` (int64) and
`int` is `torch.int` (int32); `short` (int16) and `uint8` are the other
integer dtypes a label tensor can carry. -/
inductive Dtype where
  | long
  | int
  | short
  | uint8
  | float32
  | float64
  deriving DecidableEq

/-- Torch's notion of an integer-typed tensor, used to state the spec's
"labels are integer-typed" condition. -/
def Dtype.isInteger : Dtype → Bool
  | .long | .int | .short | .uint8 => true
  | _ => false

/-- A label tensor, abstracted to the only attribute the loss policy
inspects: its dtype. -/
structure LabelTensor where
  dtype : Dtype
  deriving DecidableEq

/-- The configuration attribute bag, restricted to the fields this code
reads or writes.  `problem_type = none` models the attribute being absent
(`hasattr` false); `some none` models it being present and `None`. -/
structure Config where
  d_model : Nat
  num_labels : Nat
  dropout_rate : Rat
  use_return_dict : Bool
  problem_type : Option (Option ProblemType)
  deriving DecidableEq

/-- Embeds the `__init__` preamble shared by all four heads
(e.g. lines 109-112): if the configuration has no `problem_type`
attribute, set it to `None`; otherwise leave the configuration alone.
The rest of `__init__` builds submodules and never touches `config`. -/
def headInitConfig (config : Config) : Config :=
  if config.problem_type = none then { config with problem_type := some none }
  else config

/-- Embeds the `problem_type` inference chain (lines 344-349 / 433-438):
`num_labels == 1` gives regression; `num_labels > 1` with labels of dtype
`torch.long` or `torch.int` gives single-label classification; anything
else gives multi-label classification. -/
def inferredProblemType (num_labels : Nat) (dtype : Dtype) : ProblemType :=
  if num_labels = 1 then .regression
  else if 1 < num_labels ∧ (dtype = .long ∨ dtype = .int) then
    .single_label_classification
  else .multi_label_classification

/-- The loss primitive applied for each problem type. -/
inductive LossFn where
  | mse
  | crossEntropy
  | bceWithLogits
  deriving DecidableEq

/-- Which loss was computed and whether logits/labels were flattened with
`.view(-1, num_labels)` / `.view(-1)` before the call. -/
structure LossSpec where
  fn : LossFn
  flattenLogits : Bool
  flattenLabels : Bool
  deriving DecidableEq

/-- The loss dispatch of lines 351-359 / 440-448: MSE on
`logits.view(-1, num_labels)` vs raw labels; cross-entropy on
`logits.view(-1, num_labels)` vs `labels.view(-1)`; BCE-with-logits on the
unflattened tensors. -/
def lossFor : ProblemType → LossSpec
  | .regression => ⟨.mse, true, false⟩
  | .single_label_classification => ⟨.crossEntropy, true, true⟩
  | .multi_label_classification => ⟨.bceWithLogits, false, false⟩

/-- Embeds the loss block shared verbatim by the two flat classification
heads (lines 341-359 and 430-448): when labels are supplied, first infer
and store `problem_type` on the configuration if it is unset, then
dispatch on the stored value.  Returns the loss computation performed (if
any) and the configuration as left behind by the call.  The
`| _ => none` arm covers a configuration whose `problem_type` attribute is
absent, which in Python would raise AttributeError; it is unreachable
after `__init__`. -/
def flatLossAndConfig (config : Config) (labels : Option LabelTensor) :
    Option LossSpec × Config :=
  match labels with
  | none => (none, config)
  | some lab =>
    let config :=
      if config.problem_type = some none then
        { config with
            problem_type := some (some (inferredProblemType config.num_labels lab.dtype)) }
      else config
    let loss :=
      match config.problem_type with
      | some (some pt) => some (lossFor pt)
      | _ => none
    (loss, config)

/-- A configuration with four labels and `problem_type` present but unset. -/
def cfgFour : Config :=
  { d_model := 8, num_labels := 4, dropout_rate := 1/10, use_return_dict := true,
    problem_type := some none }

/-- C5 counterexample: with `num_labels = 4` and labels of the integer
dtype `torch.short` (int16), the first call stores multi-label
classification and computes BCE, not the categorical cross-entropy the
claim requires for integer-typed labels — the code tests only `torch.long`
and `torch.int`. -/
theorem integer_dtype_counterexample :
    Dtype.isInteger .short = true ∧
    1 < cfgFour.num_labels ∧
    cfgFour.problem_type = some none ∧
    (flatLossAndConfig cfgFour (some ⟨.short⟩)).1 =
      some (lossFor .multi_label_classification) ∧
    (flatLossAndConfig cfgFour (some ⟨.short⟩)).1 ≠
      some (lossFor .single_label_classification) := by
  decide

/-- C5 (amended): on the first call with labels while `problem_type` is
unset, `num_labels = 1` gives MSE regression on flattened logits;
`num_labels > 1` with labels of dtype `torch.long` or `torch.int` gives
cross-entropy on flattened logits and labels; otherwise BCE-with-logits
without flattening.  The inferred value is stored on the configuration and
a later call — with labels of any dtype — reuses it unchanged and computes
the same loss (first call wins). -/
theorem flat_loss_policy (c : Config) (lab : LabelTensor)
    (h : c.problem_type = some none) :
    (c.num_labels = 1 →
      flatLossAndConfig c (some lab) =
        (some ⟨.mse, true, false⟩,
          { c with problem_type := some (some .regression) })) ∧
    (1 < c.num_labels → (lab.dtype = .long ∨ lab.dtype = .int) →
      flatLossAndConfig c (some lab) =
        (some ⟨.crossEntropy, true, true⟩,
          { c with problem_type := some (some .single_label_classification) })) ∧
    (c.num_labels ≠ 1 → ¬(1 < c.num_labels ∧ (lab.dtype = .long ∨ lab.dtype = .int)) →
      flatLossAndConfig c (some lab) =
        (some ⟨.bceWithLogits, false, false⟩,
          { c with problem_type := some (some .multi_label_classification) })) ∧
    (∀ lab₂ : LabelTensor,
      flatLossAndConfig ((flatLossAndConfig c (some lab)).2) (some lab₂) =
        ((flatLossAndConfig c (some lab)).1, (flatLossAndConfig c (some lab)).2)) := by
  have hfst : flatLossAndConfig c (some lab) =
      (some (lossFor (inferredProblemType c.num_labels lab.dtype)),
        { c with
            problem_type := some (some (inferredProblemType c.num_labels lab.dtype)) }) := by
    simp [flatLossAndConfig, h]
  refine ⟨fun h1 => ?_, fun h1 h2 => ?_, fun h1 h2 => ?_, fun lab₂ => ?_⟩
  · rw [hfst]; simp [inferredProblemType, h1, lossFor]
  · rw [hfst]
    have h1' : ¬(c.num_labels = 1) := by omega
    simp [inferredProblemType, h1', h1, h2, lossFor]
  · rw [hfst]
    simp [inferredProblemType, h1, h2, lossFor]
  · rw [hfst]
    simp [flatLossAndConfig]

/-- Witness for C5 (amended) at `num_labels = 4` and `torch.long` labels. -/
theorem flat_loss_policy_witness :
    cfgFour.problem_type = some none ∧
    flatLossAndConfig cfgFour (some ⟨.long⟩) =
      (some ⟨.crossEntropy, true, true⟩,
        { cfgFour with problem_type := some (some .single_label_classification) }) :=
  ⟨rfl, (flat_loss_policy cfgFour ⟨.long⟩ rfl).2.1 (by decide) (Or.inl rfl)⟩

/-- A configuration whose `problem_type` attribute is absent. -/
def cfgAbsent : Config :=
  { d_model := 8, num_labels := 2, dropout_rate := 1/10, use_return_dict := true,
    problem_type := none }

/-- C6 counterexample: constructing a head with a configuration lacking the
`problem_type` attribute mutates the configuration (lines 110-111 set
`config.problem_type = None`), so `problem_type` is changed by construction,
outside any loss computation. -/
theorem head_init_mutates_config :
    headInitConfig cfgAbsent ≠ cfgAbsent ∧
    (headInitConfig cfgAbsent).problem_type ≠ cfgAbsent.problem_type := by
  constructor <;> simp [headInitConfig, cfgAbsent]

/-- C6 (amended): construction and the loss block leave `d_model`,
`num_labels`, `dropout_rate` and `use_return_dict` unchanged; construction
touches only a missing `problem_type` attribute (initializing it to the
unset value) and is the identity otherwise; the loss block leaves the
configuration unchanged unless `problem_type` is unset and labels are
supplied.  The CRF heads' forward never touches the configuration beyond
reading `use_return_dict`. -/
theorem config_frame (c : Config) (labels : Option LabelTensor) :
    ((headInitConfig c).d_model = c.d_model ∧
      (headInitConfig c).num_labels = c.num_labels ∧
      (headInitConfig c).dropout_rate = c.dropout_rate ∧
      (headInitConfig c).use_return_dict = c.use_return_dict) ∧
    (c.problem_type ≠ none → headInitConfig c = c) ∧
    (c.problem_type = none → headInitConfig c = { c with problem_type := some none }) ∧
    ((flatLossAndConfig c labels).2.d_model = c.d_model ∧
      (flatLossAndConfig c labels).2.num_labels = c.num_labels ∧
      (flatLossAndConfig c labels).2.dropout_rate = c.dropout_rate ∧
      (flatLossAndConfig c labels).2.use_return_dict = c.use_return_dict) ∧
    (c.problem_type ≠ some none → (flatLossAndConfig c labels).2 = c) ∧
    (labels = none → (flatLossAndConfig c labels).2 = c) := by
  refine ⟨?_, fun h => ?_, fun h => ?_, ?_, fun h => ?_, fun h => ?_⟩
  · unfold headInitConfig; split <;> simp
  · simp [headInitConfig, h]
  · simp [headInitConfig, h]
  · cases labels with
    | none => simp [flatLossAndConfig]
    | some lab2 =>
      simp only [flatLossAndConfig]
      split <;> simp
  · cases labels with
    | none => rfl
    | some lab => simp [flatLossAndConfig, h]
  · subst h; rfl

/-- Witness for C6 (amended): a missing attribute is initialized by
construction, and a loss call without labels leaves the configuration
untouched. -/
theorem config_frame_witness :
    cfgAbsent.problem_type = none ∧
    headInitConfig cfgAbsent = { cfgAbsent with problem_type := some none } ∧
    (flatLossAndConfig cfgFour none).2 = cfgFour :=
  ⟨rfl, (config_frame cfgAbsent none).2.2.1 rfl,
    (config_frame cfgFour none).2.2.2.2.2 rfl⟩

/-! ## Pooling heads (lines 64-105) -/

/-- A `torch.nn.Linear` layer over rationals: each weight row is dotted
with the input and the bias added. -/
structure Linear where
  weight : List (List Rat)
  bias : List Rat

/-- Apply a linear layer to a vector. -/
def Linear.apply (l : Linear) (x : List Rat) : List Rat :=
  List.zipWith (fun row b => (List.zipWith (· * ·) row x).sum + b) l.weight l.bias

/-- `F.relu`, elementwise `max · 0`. -/
def reluVec (v : List Rat) : List Rat := v.map (fun x => max x 0)

/-- `SimplePooler`'s learned parameters (lines 65-69). -/
structure SimplePooler where
  dense1 : Linear
  dense2 : Linear

/-- Embeds `SimplePooler.forward` (lines 71-81): take the vector at
sequence position 0 of each example (`hidden_states[:, 0]`), then
dense1 → relu → dropout → dense2.  `nn.Dropout`'s stochastic behaviour is
an abstract function argument; the mask parameter is accepted (at any
type `M`) and unused, as in the source. -/
def SimplePooler.forward {M : Type} (p : SimplePooler) (dropout : List Rat → List Rat)
    (hidden_states : List (List (List Rat))) (mask : M) : List (List Rat) :=
  hidden_states.map fun ex =>
    p.dense2.apply (dropout (reluVec (p.dense1.apply (ex.headD []))))

/-- C9: `SimplePooler`'s output depends only on the position-0 vectors.
Two calls whose batches agree at sequence position 0 — with arbitrary,
even differently-typed, mask arguments and arbitrary hidden vectors at
other positions — produce identical outputs (same parameters and same
dropout realisation). -/
theorem simple_pooler_first_token_only {M M' : Type} (p : SimplePooler)
    (dropout : List Rat → List Rat) (hs hs' : List (List (List Rat)))
    (m : M) (m' : M')
    (h : hs.map (fun ex => ex.headD []) = hs'.map (fun ex => ex.headD [])) :
    p.forward dropout hs m = p.forward dropout hs' m' := by
  have key : ∀ (l : List (List (List Rat))),
      l.map (fun ex => p.dense2.apply (dropout (reluVec (p.dense1.apply (ex.headD []))))) =
        (l.map (fun ex => ex.headD [])).map
          (fun x => p.dense2.apply (dropout (reluVec (p.dense1.apply x)))) := by
    intro l
    rw [List.map_map]
    rfl
  unfold SimplePooler.forward
  rw [key, key, h]

/-- A tiny 1-dimensional `SimplePooler` (identity weights, zero bias). -/
def pooler1 : SimplePooler := ⟨⟨[[1]], [0]⟩, ⟨[[1]], [0]⟩⟩

/-- Witness for C9: two batches differing at position 1, with masks of
different types, pool identically. -/
theorem simple_pooler_first_token_only_witness :
    ([[[3], [9]]] : List (List (List Rat))).map (fun ex => ex.headD []) =
      ([[[3], [42]]] : List (List (List Rat))).map (fun ex => ex.headD []) ∧
    pooler1.forward id [[[3], [9]]] (0 : Nat) =
      pooler1.forward id [[[3], [42]]] true :=
  ⟨rfl, simple_pooler_first_token_only pooler1 id _ _ _ _ rfl⟩

/-- Embeds the pre-transform pooling of `MeanPooler.forward` (lines 94-98),
per example: `sentence_sums[j] = Σ_t hidden[t][j] * mask[t]` (the `bmm` of
the transposed hidden states with the mask column), then division by the
mask sum — or by its square root when `sqrt` is true.  `sq` abstracts the
float `Tensor.sqrt`.  Lines 100-103 then apply the same
dense1 → relu → dropout → dense2 transform as `SimplePooler`. -/
def meanPoolerPre (sq : Rat → Rat) (sqrt : Bool) {n d : Nat}
    (hidden_states : Fin n → Fin d → Rat) (mask : Fin n → Rat) : Fin d → Rat :=
  fun j =>
    let sentence_sums := ∑ t, hidden_states t j * mask t
    let divisor := ∑ t, mask t
    let divisor := if sqrt then sq divisor else divisor
    sentence_sums / divisor

/-- The batched `MeanPooler` pre-transform pooling: line 94's `bmm` runs
`meanPoolerPre` on every example of the batch. -/
def meanPoolerPreBatch (sq : Rat → Rat) (sqrt : Bool) {B n d : Nat}
    (hidden_states : Fin B → Fin n → Fin d → Rat) (mask : Fin B → Fin n → Rat) :
    Fin B → Fin d → Rat :=
  fun b => meanPoolerPre sq sqrt (hidden_states b) (mask b)

/-- The number of tokens a mask selects (its nonzero entries), as a
rational. -/
def maskCount {n : Nat} (mask : Fin n → Rat) : Rat :=
  ((Finset.univ.filter fun t => mask t ≠ 0).card : Rat)

/-- Spec-side formulation: the mask-weighted sum of the per-token vectors
divided by the count of unmasked tokens (or its square root). -/
def specMaskedMean (sq : Rat → Rat) (sqrt : Bool) {n d : Nat}
    (hidden_states : Fin n → Fin d → Rat) (mask : Fin n → Rat) : Fin d → Rat :=
  fun j =>
    (∑ t, mask t * hidden_states t j) /
      (if sqrt then sq (maskCount mask) else maskCount mask)

lemma sum_mask_eq_count {n : Nat} (mask : Fin n → Rat)
    (hm : ∀ t, mask t = 0 ∨ mask t = 1) : (∑ t, mask t) = maskCount mask := by
  classical
  have hone : ∀ t ∈ Finset.univ.filter (fun t => mask t ≠ 0), mask t = (1 : Rat) := by
    intro t ht
    rcases hm t with h0 | h1
    · rw [Finset.mem_filter] at ht
      exact absurd h0 ht.2
    · exact h1
  calc (∑ t, mask t)
      = ∑ t ∈ Finset.univ.filter (fun t => mask t ≠ 0), mask t :=
        (Finset.sum_filter_ne_zero _).symm
    _ = ∑ _t ∈ Finset.univ.filter (fun t => mask t ≠ 0), (1 : Rat) :=
        Finset.sum_congr rfl hone
    _ = maskCount mask := by simp [maskCount]

/-- C10: for a zero/one mask selecting at least one token, the
`MeanPooler` pre-transform pooled vector is the mask-weighted sum of the
per-token vectors divided by the count of selected tokens (`sqrt = false`)
or by the square root of that count (`sqrt = true`); with the all-ones
mask and `sqrt = false` it is the arithmetic mean of the per-token
vectors. -/
theorem mean_pooler_masked_mean (sq : Rat → Rat) {n d : Nat}
    (hidden_states : Fin n → Fin d → Rat) (mask : Fin n → Rat)
    (hm : ∀ t, mask t = 0 ∨ mask t = 1) (_hsel : ∃ t, mask t = 1) :
    (∀ (sqrt : Bool) (j : Fin d),
      meanPoolerPre sq sqrt hidden_states mask j =
        specMaskedMean sq sqrt hidden_states mask j) ∧
    (∀ j : Fin d,
      meanPoolerPre sq false hidden_states (fun _ => 1) j =
        (∑ t, hidden_states t j) / n) := by
  constructor
  · intro sqrt j
    show (∑ t, hidden_states t j * mask t) /
        (if sqrt then sq (∑ t, mask t) else (∑ t, mask t)) =
      (∑ t, mask t * hidden_states t j) /
        (if sqrt then sq (maskCount mask) else maskCount mask)
    rw [sum_mask_eq_count mask hm]
    congr 1
    exact Finset.sum_congr rfl (fun t _ => mul_comm _ _)
  · intro j
    show (∑ t, hidden_states t j * (1 : Rat)) /
        (if false then sq (∑ _t : Fin n, (1 : Rat)) else (∑ _t : Fin n, (1 : Rat))) =
      (∑ t, hidden_states t j) / n
    simp [Finset.sum_const, Finset.card_univ]

/-- A concrete 2-token, 1-dimensional batch example for C10. -/
def hid2 : Fin 2 → Fin 1 → Rat := fun t _ => if t = 0 then 2 else 4

/-- Witness for C10 with the all-ones mask over two tokens. -/
theorem mean_pooler_masked_mean_witness :
    (∀ t : Fin 2, (fun _ : Fin 2 => (1 : Rat)) t = 0 ∨ (fun _ : Fin 2 => (1 : Rat)) t = 1) ∧
    (∃ t : Fin 2, (fun _ : Fin 2 => (1 : Rat)) t = 1) ∧
    (∀ j : Fin 1, meanPoolerPre id false hid2 (fun _ => 1) j =
      (∑ t, hid2 t j) / ((2 : Nat) : Rat)) :=
  ⟨fun _ => Or.inr rfl, ⟨0, rfl⟩,
    (mean_pooler_masked_mean id hid2 (fun _ => 1) (fun _ => Or.inr rfl) ⟨0, rfl⟩).2⟩

/-! ## CRF token-tagging head (lines 107-179) and output packaging -/

/-- The backbone encoder's output as consulted by the heads: `outputs[0]`
(the last hidden state), `outputs[2:]` (the extra outputs appended in
tuple mode), and the `hidden_states` / `attentions` fields read in
structured mode.  The backbone's `return_dict` argument only changes the
container these values are wrapped in, never the values themselves, so the
model exposes them uniformly. -/
structure EncoderOutput (H X HS A : Type) where
  first : H
  fromTwo : List X
  hidden_states : HS
  attentions : A

/-- Parameters and external collaborators of
`T5EncoderForEntityRecognitionWithCRF` (lines 107-118): the backbone
encoder, the dropout realisation, the `position_wise_ff` projection, and
torchcrf's sequence log-likelihood (`self.crf(...)`) and best-path decode
(`self.crf.decode(...)`).  `use_return_dict` is
`self.config.use_return_dict`. -/
structure CRFEnv (H E L D X HS A : Type) where
  use_return_dict : Bool
  encoder : List (List Int) → List (List Nat) → EncoderOutput H X HS A
  dropout : H → H
  position_wise_ff : H → E
  crf : E → L → List (List Bool) → Rat
  crfDecode : E → List (List Bool) → D

/-- `torch.ones_like(input_ids)` (line 144). -/
def onesLike (input_ids : List (List Int)) : List (List Nat) :=
  input_ids.map (fun row => row.map (fun _ => 1))

/-- `attention_mask.to(torch.bool)` (lines 162/167): nonzero → true. -/
def toBoolMask (mask : List (List Nat)) : List (List Bool) :=
  mask.map (fun row => row.map (fun x => x != 0))

/-- The attention mask the forward actually uses: the given one, or
all-ones over the input ids when omitted (lines 143-144). -/
def crfEffectiveMask (input_ids : List (List Int))
    (attention_mask : Option (List (List Nat))) : List (List Nat) :=
  attention_mask.getD (onesLike input_ids)

/-- The emissions of lines 156-158: encoder output → dropout →
`position_wise_ff`. -/
def crfEmissions {H E L D X HS A : Type} (env : CRFEnv H E L D X HS A)
    (input_ids : List (List Int)) (attention_mask : List (List Nat)) : E :=
  env.position_wise_ff (env.dropout (env.encoder input_ids attention_mask).first)

/-- What a head's forward can hand back: the structured
`TokenClassifierOutput`, the `(loss,) + (logits,) + outputs[2:]` tuple,
the loss-less `(logits,) + outputs[2:]` tuple, or a bare decoded-label
list (the Python `return logits`, which is not a tuple). -/
inductive HeadOutput (D X HS A : Type) where
  | structured (loss : Option Rat) (logits : D) (hidden_states : HS) (attentions : A)
  | tupleWithLoss (loss : Rat) (logits : D) (extras : List X)
  | tupleNoLoss (logits : D) (extras : List X)
  | bare (logits : D)
  deriving DecidableEq

/-- The loss carried by a forward result, if any. -/
def HeadOutput.lossOf {D X HS A : Type} : HeadOutput D X HS A → Option Rat
  | .structured l _ _ _ => l
  | .tupleWithLoss l _ _ => some l
  | .tupleNoLoss _ _ => none
  | .bare _ => none

/-- The logits / decoded labels carried by a forward result. -/
def HeadOutput.logitsOf {D X HS A : Type} : HeadOutput D X HS A → D
  | .structured _ lg _ _ => lg
  | .tupleWithLoss _ lg _ => lg
  | .tupleNoLoss lg _ => lg
  | .bare lg => lg

/-- Embeds `T5EncoderForEntityRecognitionWithCRF.forward` (lines 120-179):
resolve `return_dict` against the configuration default, default the
attention mask to all-ones, run the encoder, dropout, project to
emissions; with labels compute `loss = -1 * self.crf(emissions, labels,
mask)` and decode; without labels decode only; package as
`TokenClassifierOutput` when `return_dict`, else as `((loss,) + (logits,)
+ outputs[2:])` when a loss exists and as the bare decode result
otherwise (line 172). -/
def crfHeadForward {H E L D X HS A : Type} (env : CRFEnv H E L D X HS A)
    (input_ids : List (List Int)) (attention_mask : Option (List (List Nat)))
    (labels : Option L) (return_dict : Option Bool) : HeadOutput D X HS A :=
  let return_dict := return_dict.getD env.use_return_dict
  let attention_mask := attention_mask.getD (onesLike input_ids)
  let outputs := env.encoder input_ids attention_mask
  let emissions := env.position_wise_ff (env.dropout outputs.first)
  let mask := toBoolMask attention_mask
  let loss : Option Rat := labels.map (fun lab => -(env.crf emissions lab mask))
  let logits := env.crfDecode emissions mask
  if return_dict then
    .structured loss logits outputs.hidden_states outputs.attentions
  else
    match loss with
    | some l => .tupleWithLoss l logits outputs.fromTwo
    | none => .bare logits

/-- C7: the CRF head defaults an omitted attention mask to all-ones over
the input ids; with labels the carried loss is the negated CRF
log-likelihood of the true labels under the boolean-cast mask and the
carried logits are the CRF best-path decode; without labels no loss is
carried and the logits are still the decode. -/
theorem crf_head_loss_and_decode {H E L D X HS A : Type}
    (env : CRFEnv H E L D X HS A) (input_ids : List (List Int)) :
    (∀ (labels : Option L) (rd : Option Bool),
      crfHeadForward env input_ids none labels rd =
        crfHeadForward env input_ids (some (onesLike input_ids)) labels rd) ∧
    (∀ (am : Option (List (List Nat))) (lab : L) (rd : Option Bool),
      (crfHeadForward env input_ids am (some lab) rd).lossOf =
        some (-(env.crf (crfEmissions env input_ids (crfEffectiveMask input_ids am)) lab
          (toBoolMask (crfEffectiveMask input_ids am)))) ∧
      (crfHeadForward env input_ids am (some lab) rd).logitsOf =
        env.crfDecode (crfEmissions env input_ids (crfEffectiveMask input_ids am))
          (toBoolMask (crfEffectiveMask input_ids am))) ∧
    (∀ (am : Option (List (List Nat))) (rd : Option Bool),
      (crfHeadForward env input_ids am none rd).lossOf = none ∧
      (crfHeadForward env input_ids am none rd).logitsOf =
        env.crfDecode (crfEmissions env input_ids (crfEffectiveMask input_ids am))
          (toBoolMask (crfEffectiveMask input_ids am))) := by
  refine ⟨fun labels rd => rfl, fun am lab rd => ?_, fun am rd => ?_⟩ <;>
    cases hb : rd.getD env.use_return_dict <;>
      simp [crfHeadForward, hb, HeadOutput.lossOf, HeadOutput.logitsOf,
        crfEmissions, crfEffectiveMask]

/-- The flat classification heads' collaborators: the backbone encoder and
the value pipeline of lines 318-339 / 405-428 (pooler, dropout, per-span
mean extraction, `fc_layer`, concatenation, `classifier`), uninterpreted
here — the poolers it uses are modelled independently above.  The third
argument of `computeLogits` is `entity_token_idx`: one (subject, object)
pair of half-open token spans per example. -/
structure FlatEnv (H X HS A Lg : Type) where
  encoder : List (List Int) → Option (List (List Nat)) → EncoderOutput H X HS A
  computeLogits : H → Option (List (List Nat)) → List ((Nat × Nat) × (Nat × Nat)) → Lg

/-- What the flat heads return: always a `SequenceClassifierOutput`
(lines 361-366 / 450-455); the loss slot records which loss computation,
if any, was performed. -/
structure SeqClsOutput (Lg HS A : Type) where
  loss : Option LossSpec
  logits : Lg
  hidden_states : HS
  attentions : A
  deriving DecidableEq

/-- Embeds the forwards of the two flat heads (lines 296-366 and
383-455): run the encoder, compute logits from `outputs[0]`, run the
shared loss block, and return the structured output unconditionally —
`return_dict` is forwarded only to the backbone (whose field values it
does not affect); there is no tuple-packaging branch.  The returned
configuration reflects the loss block's possible `problem_type` write. -/
def flatHeadForward {H X HS A Lg : Type} (envF : FlatEnv H X HS A Lg)
    (config : Config) (input_ids : List (List Int))
    (attention_mask : Option (List (List Nat))) (labels : Option LabelTensor)
    (return_dict : Option Bool)
    (entity_token_idx : List ((Nat × Nat) × (Nat × Nat))) :
    SeqClsOutput Lg HS A × Config :=
  let outputs := envF.encoder input_ids attention_mask
  let logits := envF.computeLogits outputs.first attention_mask entity_token_idx
  let lossAndConfig := flatLossAndConfig config labels
  ({ loss := lossAndConfig.1, logits := logits,
     hidden_states := outputs.hidden_states,
     attentions := outputs.attentions }, lossAndConfig.2)

/-- A concrete CRF-head environment over `Nat` data with one extra output. -/
def crfEnvNat : CRFEnv Nat Nat Nat Nat Nat Nat Nat :=
  { use_return_dict := true
    encoder := fun _ _ => ⟨0, [7], 3, 4⟩
    dropout := id
    position_wise_ff := fun h => h
    crf := fun _ _ _ => 1
    crfDecode := fun _ _ => 5 }

/-- C8 counterexample: with the flag falsy and no labels, the CRF head
returns the bare decoded-label list (Python `return logits`, line 172) —
not the claimed plain tuple of the logits followed by the extra outputs;
the extra output `7` of `outputs[2:]` is dropped. -/
theorem tuple_mode_counterexample :
    crfHeadForward crfEnvNat [[1]] none none (some false) = .bare 5 ∧
    (HeadOutput.bare 5 : HeadOutput Nat Nat Nat Nat) ≠ .tupleNoLoss 5 [7] := by
  exact ⟨rfl, by decide⟩

/-- C8 (amended): for the CRF heads, a falsy flag with labels yields the
tuple `(loss, decode, outputs[2:])`; a falsy flag without labels yields
the bare decode result (no tuple, extra outputs dropped); a truthy flag
yields the structured output; an absent flag falls back to the
configuration default; and the flag never changes the carried loss or
logits.  The flat heads return the structured output for every flag
value — they have no tuple branch. -/
theorem output_packaging {H E L D X HS A H' X' HS' A' Lg : Type}
    (env : CRFEnv H E L D X HS A) (input_ids : List (List Int))
    (am : Option (List (List Nat))) (lab : L) (labels : Option L)
    (rd₁ rd₂ : Option Bool) (envF : FlatEnv H' X' HS' A' Lg) (config : Config)
    (labelsF : Option LabelTensor) (eti : List ((Nat × Nat) × (Nat × Nat))) :
    (crfHeadForward env input_ids am (some lab) (some false) =
      .tupleWithLoss
        (-(env.crf (crfEmissions env input_ids (crfEffectiveMask input_ids am)) lab
          (toBoolMask (crfEffectiveMask input_ids am))))
        (env.crfDecode (crfEmissions env input_ids (crfEffectiveMask input_ids am))
          (toBoolMask (crfEffectiveMask input_ids am)))
        (env.encoder input_ids (crfEffectiveMask input_ids am)).fromTwo) ∧
    (crfHeadForward env input_ids am none (some false) =
      .bare (env.crfDecode (crfEmissions env input_ids (crfEffectiveMask input_ids am))
        (toBoolMask (crfEffectiveMask input_ids am)))) ∧
    (crfHeadForward env input_ids am labels (some true) =
      .structured
        (labels.map fun l =>
          -(env.crf (crfEmissions env input_ids (crfEffectiveMask input_ids am)) l
            (toBoolMask (crfEffectiveMask input_ids am))))
        (env.crfDecode (crfEmissions env input_ids (crfEffectiveMask input_ids am))
          (toBoolMask (crfEffectiveMask input_ids am)))
        (env.encoder input_ids (crfEffectiveMask input_ids am)).hidden_states
        (env.encoder input_ids (crfEffectiveMask input_ids am)).attentions) ∧
    (crfHeadForward env input_ids am labels none =
      crfHeadForward env input_ids am labels (some env.use_return_dict)) ∧
    ((crfHeadForward env input_ids am labels rd₁).lossOf =
        (crfHeadForward env input_ids am labels rd₂).lossOf ∧
      (crfHeadForward env input_ids am labels rd₁).logitsOf =
        (crfHeadForward env input_ids am labels rd₂).logitsOf) ∧
    (flatHeadForward envF config input_ids am labelsF rd₁ eti =
      flatHeadForward envF config input_ids am labelsF rd₂ eti) := by
  refine ⟨rfl, rfl, rfl, rfl, ?_, rfl⟩
  cases labels <;>
    cases hb₁ : rd₁.getD env.use_return_dict <;>
      cases hb₂ : rd₂.getD env.use_return_dict <;>
        simp [crfHeadForward, hb₁, hb₂, HeadOutput.lossOf, HeadOutput.logitsOf]
